import Mathlib

/-!
Shallow embedding of the `subscription-manager` CosmWasm contract
(`src/subscription-manager/src/contract.rs`) together with the parts of its
environment the contract relies on (SHA-256 hashing, lowercase hex encoding,
the secret-toolkit key maps, the host address-validation and permit-validation
capabilities).  State is threaded explicitly: every execute handler takes the
store and returns the result together with the store as it stands when the
handler returns (error returns in the source happen before any mutation, and
the host rolls back a failed transaction, so the store returned alongside an
error is the caller-visible store).
-/

/-! ### Bytes, SHA-256 and hex encoding

The contract hashes API keys with `sha2::Sha256` and hex-encodes the digest
with `hex::encode`.  Both are modelled bit-faithfully below, over `List Nat`
with every byte kept `< 256` and every word reduced `% 2^32`.
-/

/-- UTF-8 encoding of a single Unicode code point, as the list of its bytes. -/
def utf8EncodeCp (c : Nat) : List Nat :=
  if c < 0x80 then [c]
  else if c < 0x800 then
    [0xC0 + c / 64, 0x80 + c % 64]
  else if c < 0x10000 then
    [0xE0 + c / 4096, 0x80 + c / 64 % 64, 0x80 + c % 64]
  else
    [0xF0 + c / 262144, 0x80 + c / 4096 % 64, 0x80 + c / 64 % 64, 0x80 + c % 64]

/-- The UTF-8 bytes of a string (`str::as_bytes` in the source). -/
def strBytes (s : String) : List Nat :=
  s.data.foldr (fun c acc => utf8EncodeCp c.toNat ++ acc) []

/-- Big-endian byte representation of `v` in exactly `n` bytes. -/
def beBytes : Nat → Nat → List Nat
  | 0, _ => []
  | n + 1, v => beBytes n (v / 256) ++ [v % 256]

/-- 32-bit modular addition. -/
def add32 (a b : Nat) : Nat := (a + b) % 4294967296

/-- 32-bit right rotation by `n`. -/
def rotr32 (n x : Nat) : Nat :=
  (Nat.lor (x >>> n) (x <<< (32 - n))) % 4294967296

/-- SHA-256 choice function. -/
def sha256Ch (x y z : Nat) : Nat :=
  Nat.xor (Nat.land x y) (Nat.land (Nat.xor x 4294967295) z)

/-- SHA-256 majority function. -/
def sha256Maj (x y z : Nat) : Nat :=
  Nat.xor (Nat.xor (Nat.land x y) (Nat.land x z)) (Nat.land y z)

/-- SHA-256 big sigma 0. -/
def bigSigma0 (x : Nat) : Nat :=
  Nat.xor (Nat.xor (rotr32 2 x) (rotr32 13 x)) (rotr32 22 x)

/-- SHA-256 big sigma 1. -/
def bigSigma1 (x : Nat) : Nat :=
  Nat.xor (Nat.xor (rotr32 6 x) (rotr32 11 x)) (rotr32 25 x)

/-- SHA-256 small sigma 0. -/
def smallSigma0 (x : Nat) : Nat :=
  Nat.xor (Nat.xor (rotr32 7 x) (rotr32 18 x)) (x >>> 3)

/-- SHA-256 small sigma 1. -/
def smallSigma1 (x : Nat) : Nat :=
  Nat.xor (Nat.xor (rotr32 17 x) (rotr32 19 x)) (x >>> 10)

/-- The 64 SHA-256 round constants (FIPS 180-4, written in decimal). -/
def sha256K : List Nat :=
  [1116352408, 1899447441, 3049323471, 3921009573, 961987163, 1508970993,
   2453635748, 2870763221, 3624381080, 310598401, 607225278, 1426881987,
   1925078388, 2162078206, 2614888103, 3248222580, 3835390401, 4022224774,
   264347078, 604807628, 770255983, 1249150122, 1555081692, 1996064986,
   2554220882, 2821834349, 2952996808, 3210313671, 3336571891, 3584528711,
   113926993, 338241895, 666307205, 773529912, 1294757372, 1396182291,
   1695183700, 1986661051, 2177026350, 2456956037, 2730485921, 2820302411,
   3259730800, 3345764771, 3516065817, 3600352804, 4094571909, 275423344,
   430227734, 506948616, 659060556, 883997877, 958139571, 1322822218,
   1537002063, 1747873779, 1955562222, 2024104815, 2227730452, 2361852424,
   2428436474, 2756734187, 3204031479, 3329325298]

/-- The SHA-256 initial hash value (FIPS 180-4, written in decimal). -/
def sha256H0 : List Nat :=
  [1779033703, 3144134277, 1013904242, 2773480762,
   1359893119, 2600822924, 528734635, 1541459225]

/-- SHA-256 padding: append `0x80`, zero bytes, and the 64-bit big-endian bit length. -/
def sha256Pad (msg : List Nat) : List Nat :=
  let len := msg.length
  let padZeros := (64 + 55 - len % 64) % 64
  msg ++ [0x80] ++ List.replicate padZeros 0 ++ beBytes 8 (len * 8)

/-- Group bytes four at a time into big-endian 32-bit words. -/
def bytesToWords : List Nat → List Nat
  | a :: b :: c :: d :: rest => (((a * 256 + b) * 256 + c) * 256 + d) :: bytesToWords rest
  | _ => []

/-- Extend the 16-word message schedule by `n` further words. -/
def extendSchedule : Nat → Array Nat → Array Nat
  | 0, w => w
  | n + 1, w =>
    let t := add32 (add32 (smallSigma1 (w.getD (w.size - 2) 0)) (w.getD (w.size - 7) 0))
                   (add32 (smallSigma0 (w.getD (w.size - 15) 0)) (w.getD (w.size - 16) 0))
    extendSchedule n (w.push t)

/-- One SHA-256 compression round on the working state `[a,b,c,d,e,f,g,h]`. -/
def compressRound (st : List Nat) (kw : Nat × Nat) : List Nat :=
  match st with
  | [a, b, c, d, e, f, g, h] =>
    let t1 := add32 h (add32 (bigSigma1 e) (add32 (sha256Ch e f g) (add32 kw.1 kw.2)))
    let t2 := add32 (bigSigma0 a) (sha256Maj a b c)
    [add32 t1 t2, a, b, c, add32 d t1, e, f, g]
  | other => other

/-- SHA-256 compression of one 64-byte block into the running hash. -/
def compressBlock (h : List Nat) (block : List Nat) : List Nat :=
  let w := extendSchedule 48 (bytesToWords block).toArray
  let st := (sha256K.zip w.toList).foldl compressRound h
  (h.zip st).map (fun p => add32 p.1 p.2)

/-- Split a byte list into 64-byte blocks (`fuel` bounds the recursion). -/
def chunks64 : Nat → List Nat → List (List Nat)
  | 0, _ => []
  | _ + 1, [] => []
  | n + 1, l => l.take 64 :: chunks64 n (l.drop 64)

/-- The SHA-256 digest (32 bytes) of a byte sequence. -/
def sha256 (msg : List Nat) : List Nat :=
  let padded := sha256Pad msg
  let hfin := (chunks64 padded.length padded).foldl compressBlock sha256H0
  hfin.foldr (fun w acc => beBytes 4 w ++ acc) []

/-- The lowercase hex digit for a nibble. -/
def hexDigit (n : Nat) : Char :=
  if n < 10 then Char.ofNat (48 + n) else Char.ofNat (87 + n)

/-- Lowercase hex encoding of a byte sequence (`hex::encode` in the source). -/
def hexEncode (bs : List Nat) : String :=
  String.mk (bs.foldr (fun b acc => hexDigit (b / 16) :: hexDigit (b % 16) :: acc) [])

/-! ### Contract data model

Mirrors `src/subscription-manager/src/state.rs` (the `State` singleton, the
`SB_MAP` and `API_KEY_MAP` key maps) and `msg.rs` response types.  The
secret-toolkit `Keymap` is modelled as an association list with
insert-replaces / remove-filters / contains / ordered key iteration.
-/

/-- Contract errors: the source only produces `StdError::generic_err(msg)`. -/
inductive StdError where
  | genericErr (msg : String)
  deriving DecidableEq, Repr

/-- A CosmWasm `Response`, reduced to the attribute list the handlers build. -/
structure Response where
  attributes : List (String × String)
  deriving DecidableEq, Repr

/-- `Response::new()`. -/
def Response.new : Response := ⟨[]⟩

/-- `Response::add_attribute`. -/
def Response.addAttr (r : Response) (k v : String) : Response :=
  ⟨r.attributes ++ [(k, v)]⟩

/-- `Subscriber { status: bool }` from `state.rs`. -/
structure Subscriber where
  status : Bool
  deriving DecidableEq, Repr

/-- `ApiKey {}` from `state.rs`: an empty marker record. -/
structure ApiKey where
  deriving DecidableEq, Repr

/-- `State { admin: Addr }` from `state.rs`; `Addr` is its string form. -/
structure State where
  admin : String
  deriving DecidableEq, Repr

/-- `Keymap::contains`. -/
def kmContains (k : String) (m : List (String × α)) : Bool :=
  m.any (fun p => p.1 = k)

/-- `Keymap::get`. -/
def kmGet (k : String) (m : List (String × α)) : Option α :=
  (m.find? (fun p => p.1 = k)).map Prod.snd

/-- `Keymap::insert`: replace the value when the key is present, else append. -/
def kmInsert (k : String) (v : α) (m : List (String × α)) : List (String × α) :=
  if kmContains k m then m.map (fun p => if p.1 = k then (k, v) else p)
  else m ++ [(k, v)]

/-- `Keymap::remove`: drop every entry stored under the key. -/
def kmRemove (k : String) (m : List (String × α)) : List (String × α) :=
  m.filter (fun p => ¬ p.1 = k)

/-- `Keymap::iter_keys`: the stored keys, in iteration order. -/
def kmKeys (m : List (String × α)) : List String :=
  m.map Prod.fst

/-- The whole persistent store of the contract: the `State` singleton plus the
two key maps. -/
structure Store where
  state : State
  sb_map : List (String × Subscriber)
  api_key_map : List (String × ApiKey)
  deriving DecidableEq, Repr

/-! ### Message and response types (`msg.rs`) -/

/-- `SubscriberStatusResponse { active: bool }`. -/
structure SubscriberStatusResponse where
  active : Bool
  deriving DecidableEq, Repr

/-- `ApiKeyResponse { hashed_key: String }`. -/
structure ApiKeyResponse where
  hashed_key : String
  deriving DecidableEq, Repr

/-- `GetApiKeysResponse { api_keys: Vec<ApiKeyResponse> }`. -/
structure GetApiKeysResponse where
  api_keys : List ApiKeyResponse
  deriving DecidableEq, Repr

/-- `MigrateMsg`: the `Migrate {}` and `StdError {}` variants. -/
inductive MigrateMsg where
  | Migrate
  | ForceStdError
  deriving DecidableEq, Repr

/-- `PermitParams`, reduced to the one field the contract inspects itself;
the signature and the remaining parameters are consumed only by the external
`secret_toolkit::permit::validate` capability, which is a parameter below. -/
structure PermitParams where
  permit_name : String
  deriving DecidableEq, Repr

/-- `secret_toolkit::permit::Permit`. -/
structure Permit where
  params : PermitParams
  deriving DecidableEq, Repr

/-- The host permit-validation capability
`validate(deps, storage_prefix, permit, contract_address, hrp)`:
returns the signer address or an error. -/
def PermitValidator := String → Permit → String → Option String → Except StdError String

/-- The host address-validation capability `deps.api.addr_validate`:
returns the validated address or an error message. -/
def AddrValidator := String → Except String String

/-! ### Execute handlers (`contract.rs`)

Each handler takes the sender (`info.sender`) and the store, and returns the
result paired with the store as it stands when the handler returns.
-/

/-- `try_add_api_key` (contract.rs lines 54-89). -/
def try_add_api_key (store : Store) (sender : String) (api_key : String) :
    Except StdError Response × Store :=
  if sender ≠ store.state.admin then
    (Except.error (StdError.genericErr "Only admin can add API keys"), store)
  else
    let key_hash := hexEncode (sha256 (strBytes api_key))
    if kmContains key_hash store.api_key_map then
      (Except.error (StdError.genericErr "API key (hash) already exists"), store)
    else
      (Except.ok ((Response.new.addAttr "action" "add_api_key").addAttr "stored_hash" key_hash),
       { store with api_key_map := kmInsert key_hash ApiKey.mk store.api_key_map })

/-- `try_revoke_api_key` (contract.rs lines 91-123). -/
def try_revoke_api_key (store : Store) (sender : String) (api_key : String) :
    Except StdError Response × Store :=
  if sender ≠ store.state.admin then
    (Except.error (StdError.genericErr "Only admin can revoke API keys"), store)
  else
    let key_hash := hexEncode (sha256 (strBytes api_key))
    if ¬ kmContains key_hash store.api_key_map then
      (Except.error (StdError.genericErr "API key (hash) not found"), store)
    else
      (Except.ok ((Response.new.addAttr "action" "revoke_api_key").addAttr "removed_hash" key_hash),
       { store with api_key_map := kmRemove key_hash store.api_key_map })

/-- `try_register_subscriber` (contract.rs lines 149-176). -/
def try_register_subscriber (store : Store) (sender : String) (public_key : String) :
    Except StdError Response × Store :=
  if sender ≠ store.state.admin then
    (Except.error (StdError.genericErr "Only admin can register subscribers"), store)
  else if kmContains public_key store.sb_map then
    (Except.error (StdError.genericErr "Subscriber already registered"), store)
  else
    (Except.ok ((Response.new.addAttr "action" "register_subscriber").addAttr "subscriber" public_key),
     { store with sb_map := kmInsert public_key (Subscriber.mk true) store.sb_map })

/-- `try_remove_subscriber` (contract.rs lines 179-205). -/
def try_remove_subscriber (store : Store) (sender : String) (public_key : String) :
    Except StdError Response × Store :=
  if sender ≠ store.state.admin then
    (Except.error (StdError.genericErr "Only admin can remove subscribers"), store)
  else if ¬ kmContains public_key store.sb_map then
    (Except.error (StdError.genericErr "Subscriber not registered"), store)
  else
    (Except.ok ((Response.new.addAttr "action" "remove_subscriber").addAttr "subscriber" public_key),
     { store with sb_map := kmRemove public_key store.sb_map })

/-- `try_set_admin` (contract.rs lines 208-230); `av` is the host
`deps.api.addr_validate` capability. -/
def try_set_admin (store : Store) (sender : String) (public_key : String) (av : AddrValidator) :
    Except StdError Response × Store :=
  if sender ≠ store.state.admin then
    (Except.error (StdError.genericErr "Only the current admin can set a new admin"), store)
  else
    match av public_key with
    | Except.error err =>
      (Except.error (StdError.genericErr ("Invalid address: " ++ err)), store)
    | Except.ok final_address =>
      (Except.ok ((Response.new.addAttr "action" "set_admin").addAttr "new_admin" public_key),
       { store with state := { admin := final_address } })

/-- `migrate` (contract.rs lines 125-146). -/
def migrate (store : Store) (msg : MigrateMsg) : Except StdError Response × Store :=
  match msg with
  | MigrateMsg.Migrate =>
    let keys_to_remove := kmKeys store.api_key_map
    let cleared := keys_to_remove.foldl (fun m k => kmRemove k m) store.api_key_map
    (Except.ok ((Response.new.addAttr "action" "migrate").addAttr "status" "api_key_map_cleared"),
     { store with api_key_map := cleared })
  | MigrateMsg.ForceStdError =>
    (Except.error (StdError.genericErr "this is an std error"), store)

/-! ### Query handlers (`contract.rs`) -/

/-- `get_admin` (contract.rs lines 247-250). -/
def get_admin (store : Store) : Except StdError String :=
  Except.ok store.state.admin

/-- `query_subscriber_with_permit` (contract.rs lines 253-289); `validate` is
the external permit-validation capability, `contract_address` is
`env.contract.address`. -/
def query_subscriber_with_permit (validate : PermitValidator) (store : Store)
    (contract_address : String) (public_key : String) (permit : Permit) :
    Except StdError SubscriberStatusResponse :=
  let admin_addr := store.state.admin
  if permit.params.permit_name ≠ "query_subscriber_permit" then
    Except.error (StdError.genericErr "Invalid permit name")
  else
    match validate "permits_subscriber_status" permit contract_address (some "secret") with
    | Except.error e => Except.error e
    | Except.ok signer_addr =>
      if signer_addr ≠ admin_addr then
        Except.error (StdError.genericErr "Unauthorized: not the admin")
      else
        Except.ok { active := (kmGet public_key store.sb_map).isSome }

/-- `query_api_keys_with_permit` (contract.rs lines 292-355). -/
def query_api_keys_with_permit (validate : PermitValidator) (store : Store)
    (contract_address : String) (permit : Permit) :
    Except StdError GetApiKeysResponse :=
  let admin_addr := store.state.admin
  if permit.params.permit_name ≠ "api_keys_permit" then
    Except.error (StdError.genericErr "Invalid permit name")
  else
    match validate "permits_api_keys" permit contract_address (some "secret") with
    | Except.error e => Except.error e
    | Except.ok signer_addr =>
      if signer_addr ≠ admin_addr then
        Except.error (StdError.genericErr "Unauthorized: not the admin")
      else
        Except.ok { api_keys := (kmKeys store.api_key_map).map (fun k => ⟨k⟩) }

/-! ### Spec-modelled signature-based subscriber query -/

/-- The numeric value of one hex digit character, accepting both cases. -/
def hexDigitVal (c : Char) : Option Nat :=
  if 48 ≤ c.toNat ∧ c.toNat ≤ 57 then some (c.toNat - 48)
  else if 97 ≤ c.toNat ∧ c.toNat ≤ 102 then some (c.toNat - 87)
  else if 65 ≤ c.toNat ∧ c.toNat ≤ 70 then some (c.toNat - 55)
  else none

/-- Decode a hex string into bytes; `none` on a non-hex character or odd length. -/
def hexDecodeChars : List Char → Option (List Nat)
  | [] => some []
  | hi :: lo :: rest => do
    let h ← hexDigitVal hi
    let l ← hexDigitVal lo
    let tl ← hexDecodeChars rest
    pure ((h * 16 + l) :: tl)
  | _ => none

/-- `hex::decode` over a string. -/
def hexDecode (s : String) : Option (List Nat) :=
  hexDecodeChars s.data

/-- The external secp256k1 ECDSA verification capability: given public-key
bytes, signature bytes and a 32-byte digest, returns whether the signature
verifies, or fails on a malformed curve point or DER signature. -/
def SecpVerifier := List Nat → List Nat → List Nat → Except StdError Bool

/-- Modelled from the spec: the detached-signature verifier of §4.3, whose
implementation is not under `src/` (only the spec describes it).  Decodes the
public key and signature from hex, computes the SHA-256 digest of the message,
and delegates curve-point/DER parsing and ECDSA verification to the external
secp256k1 capability. -/
def verify_signature (secp : SecpVerifier) (public_key_hex signature_hex : String)
    (message : List Nat) : Except StdError Bool :=
  match hexDecode public_key_hex with
  | none => Except.error (StdError.genericErr "Invalid public key hex")
  | some pk =>
    match hexDecode signature_hex with
    | none => Except.error (StdError.genericErr "Invalid signature hex")
    | some sig => secp pk sig (sha256 message)

/-- Modelled from the spec: the `SubscriberStatus{key, signature_hex,
public_key_hex}` query handler of §4.6 and §6, whose implementation is not
under `src/`.  Builds the fixed payload `key || "_payload_message"`, verifies
the detached signature over it via §4.3, fails on any malformed input or
cryptographic mismatch, and otherwise answers subscriber presence. -/
def query_subscriber_status (secp : SecpVerifier) (store : Store)
    (public_key signature_hex sender_public_key_hex : String) :
    Except StdError SubscriberStatusResponse :=
  let message := strBytes (public_key ++ "_payload_message")
  match verify_signature secp sender_public_key_hex signature_hex message with
  | Except.error e => Except.error e
  | Except.ok true => Except.ok { active := kmContains public_key store.sb_map }
  | Except.ok false => Except.error (StdError.genericErr "Invalid signature")

/-! ### Supporting lemmas -/

/-- The embedded SHA-256 matches the standard empty-message test vector. -/
theorem sha256_empty_vector : hexEncode (sha256 (strBytes "")) =
    "e3b0c44298fc1c149afbf4c8996fb92427ae41e4649b934ca495991b7852b855" := by rfl

/-- The embedded SHA-256 matches the standard "abc" test vector. -/
theorem sha256_abc_vector : hexEncode (sha256 (strBytes "abc")) =
    "ba7816bf8f01cfea414140de5dae2223b00361a396177a9cb410ff61f20015ad" := by rfl

/-- `beBytes` always yields exactly `n` bytes. -/
theorem beBytes_length (n v : Nat) : (beBytes n v).length = n := by
  induction n generalizing v with
  | zero => rfl
  | succ n ih => simp [beBytes, ih]

/-- Every entry produced by `beBytes` is a byte. -/
theorem beBytes_lt (n v : Nat) : ∀ b ∈ beBytes n v, b < 256 := by
  induction n generalizing v with
  | zero => simp [beBytes]
  | succ n ih =>
    intro b hb
    simp only [beBytes, List.mem_append, List.mem_singleton] at hb
    rcases hb with h | h
    · exact ih _ _ h
    · simp [h, Nat.mod_lt]

/-- One compression round preserves the length of the working state. -/
theorem compressRound_length (st : List Nat) (kw : Nat × Nat) :
    (compressRound st kw).length = st.length := by
  rcases st with _ | ⟨a, _ | ⟨b, _ | ⟨c, _ | ⟨d, _ | ⟨e, _ | ⟨f, _ | ⟨g, _ | ⟨h, _ | ⟨i, t⟩⟩⟩⟩⟩⟩⟩⟩⟩ <;>
    simp [compressRound]

/-- Folding compression rounds preserves the length of the working state. -/
theorem foldl_compressRound_length (l : List (Nat × Nat)) (st : List Nat) :
    (l.foldl compressRound st).length = st.length := by
  induction l generalizing st with
  | nil => rfl
  | cons kw l ih => simp [List.foldl_cons, ih, compressRound_length]

/-- Compressing a block preserves the length of the running hash. -/
theorem compressBlock_length (h block : List Nat) :
    (compressBlock h block).length = h.length := by
  simp [compressBlock, foldl_compressRound_length, Nat.min_self]

/-- Folding block compression preserves the length of the running hash. -/
theorem foldl_compressBlock_length (bs : List (List Nat)) (h : List Nat) :
    (bs.foldl compressBlock h).length = h.length := by
  induction bs generalizing h with
  | nil => rfl
  | cons b bs ih => simp [List.foldl_cons, ih, compressBlock_length]

/-- Serialising hash words to bytes yields four bytes per word. -/
theorem digestBytes_length (l : List Nat) :
    (l.foldr (fun w acc => beBytes 4 w ++ acc) []).length = 4 * l.length := by
  induction l with
  | nil => rfl
  | cons w l ih =>
    simp [List.foldr_cons, ih, beBytes_length, Nat.mul_succ, Nat.add_comm]

/-- Every byte serialised from the hash words is below 256. -/
theorem digestBytes_lt (l : List Nat) :
    ∀ b ∈ l.foldr (fun w acc => beBytes 4 w ++ acc) [], b < 256 := by
  induction l with
  | nil => simp
  | cons w l ih =>
    intro b hb
    simp only [List.foldr_cons, List.mem_append] at hb
    rcases hb with h | h
    · exact beBytes_lt 4 w b h
    · exact ih b h

/-- A SHA-256 digest is exactly 32 bytes long. -/
theorem sha256_length (msg : List Nat) : (sha256 msg).length = 32 := by
  rw [show sha256 msg =
        ((chunks64 (sha256Pad msg).length (sha256Pad msg)).foldl compressBlock sha256H0).foldr
          (fun w acc => beBytes 4 w ++ acc) [] from rfl,
      digestBytes_length, foldl_compressBlock_length]
  rfl

/-- Every entry of a SHA-256 digest is a byte. -/
theorem sha256_lt (msg : List Nat) : ∀ b ∈ sha256 msg, b < 256 :=
  digestBytes_lt ((chunks64 (sha256Pad msg).length (sha256Pad msg)).foldl compressBlock sha256H0)

/-- A character is a lowercase hex digit (`0`-`9` or `a`-`f`). -/
def isLowerHexChar (c : Char) : Bool :=
  (48 ≤ c.toNat && c.toNat ≤ 57) || (97 ≤ c.toNat && c.toNat ≤ 102)

/-- `hexDigit` of a nibble is a lowercase hex digit. -/
theorem hexDigit_lowerHex : ∀ n, n < 16 → isLowerHexChar (hexDigit n) = true := by decide

/-- Hex encoding yields two characters per byte. -/
theorem hexEncode_length (bs : List Nat) : (hexEncode bs).length = 2 * bs.length := by
  have : ∀ l : List Nat,
      (l.foldr (fun b acc => hexDigit (b / 16) :: hexDigit (b % 16) :: acc) []).length
        = 2 * l.length := by
    intro l
    induction l with
    | nil => rfl
    | cons b l ih => simp [List.foldr_cons, ih, Nat.mul_succ, Nat.add_comm]; omega
  simpa [hexEncode, String.length] using this bs

/-- Hex encoding of bytes yields only lowercase hex characters. -/
theorem hexEncode_lowerHex (bs : List Nat) (hb : ∀ b ∈ bs, b < 256) :
    ∀ c ∈ (hexEncode bs).data, isLowerHexChar c = true := by
  have : ∀ l : List Nat, (∀ b ∈ l, b < 256) →
      ∀ c ∈ l.foldr (fun b acc => hexDigit (b / 16) :: hexDigit (b % 16) :: acc) [],
        isLowerHexChar c = true := by
    intro l hl
    induction l with
    | nil => simp
    | cons b l ih =>
      intro c hc
      simp only [List.foldr_cons, List.mem_cons] at hc
      rcases hc with h | h | h
      · have hb16 : b / 16 < 16 := by
          have := hl b (List.mem_cons_self b l); omega
        exact h ▸ hexDigit_lowerHex _ hb16
      · exact h ▸ hexDigit_lowerHex _ (Nat.mod_lt b (by norm_num))
      · exact ih (fun x hx => hl x (List.mem_cons_of_mem b hx)) c h
  exact this bs hb

/-- Presence via `kmGet` agrees with `kmContains`. -/
theorem kmGet_isSome (k : String) (m : List (String × α)) :
    (kmGet k m).isSome = kmContains k m := by
  induction m with
  | nil => rfl
  | cons p m ih =>
    by_cases h : p.1 = k
    · simp [kmGet, kmContains, List.find?_cons, List.any_cons, h]
    · simp only [kmGet, kmContains, List.find?_cons, List.any_cons, h]
      simpa [kmGet, kmContains, h] using ih

/-- Removing a set of keys covering every stored key empties the map. -/
theorem foldl_kmRemove_all (ks : List String) (m : List (String × α))
    (h : ∀ p ∈ m, p.1 ∈ ks) : ks.foldl (fun s k => kmRemove k s) m = [] := by
  induction ks generalizing m with
  | nil =>
    cases m with
    | nil => rfl
    | cons p m => exact absurd (h p (List.mem_cons_self p m)) (List.not_mem_nil p.1)
  | cons k ks ih =>
    simp only [List.foldl_cons]
    apply ih
    intro p hp
    have hm : p ∈ m ∧ ¬ p.1 = k := by
      simpa [kmRemove, List.mem_filter] using hp
    rcases List.mem_cons.mp (h p hm.1) with hk | hk
    · exact absurd hk hm.2
    · exact hk

/-- Removing every iterated key empties the map. -/
theorem foldl_kmRemove_keys (m : List (String × α)) :
    (kmKeys m).foldl (fun s k => kmRemove k s) m = [] :=
  foldl_kmRemove_all (kmKeys m) m (fun _q hq => List.mem_map_of_mem Prod.fst hq)

/-- All five mutating handlers, called by a non-admin sender, return the
operation's unauthorized error and the untouched store. -/
theorem nonAdminUniform (store : Store) (a k : String) (av : AddrValidator)
    (h : a ≠ store.state.admin) :
    try_register_subscriber store a k =
      (Except.error (StdError.genericErr "Only admin can register subscribers"), store) ∧
    try_remove_subscriber store a k =
      (Except.error (StdError.genericErr "Only admin can remove subscribers"), store) ∧
    try_set_admin store a k av =
      (Except.error (StdError.genericErr "Only the current admin can set a new admin"), store) ∧
    try_add_api_key store a k =
      (Except.error (StdError.genericErr "Only admin can add API keys"), store) ∧
    try_revoke_api_key store a k =
      (Except.error (StdError.genericErr "Only admin can revoke API keys"), store) := by
  refine ⟨?_, ?_, ?_, ?_, ?_⟩ <;>
    simp [try_register_subscriber, try_remove_subscriber, try_set_admin,
          try_add_api_key, try_revoke_api_key, h]

/-! ### Claims -/

/-- C1: For every identity `a` different from the stored admin, every mutating
operation (RegisterSubscriber, RemoveSubscriber, SetAdmin, AddApiKey,
RevokeApiKey) called with sender `a` fails with its Unauthorized error and
leaves the entire store (admin configuration, subscriber map, API-key map)
unchanged. -/
theorem C1_nonadmin_mutations_rejected (store : Store) (a k : String) (av : AddrValidator)
    (h : a ≠ store.state.admin) :
    try_register_subscriber store a k =
      (Except.error (StdError.genericErr "Only admin can register subscribers"), store) ∧
    try_remove_subscriber store a k =
      (Except.error (StdError.genericErr "Only admin can remove subscribers"), store) ∧
    try_set_admin store a k av =
      (Except.error (StdError.genericErr "Only the current admin can set a new admin"), store) ∧
    try_add_api_key store a k =
      (Except.error (StdError.genericErr "Only admin can add API keys"), store) ∧
    try_revoke_api_key store a k =
      (Except.error (StdError.genericErr "Only admin can revoke API keys"), store) :=
  nonAdminUniform store a k av h

/-- Witness for C1: a non-admin sender is rejected and the store survives. -/
theorem C1_witness :
    ("bob" : String) ≠ (Store.mk ⟨"alice"⟩ [] []).state.admin ∧
    try_register_subscriber ⟨⟨"alice"⟩, [], []⟩ "bob" "k" =
      (Except.error (StdError.genericErr "Only admin can register subscribers"),
       ⟨⟨"alice"⟩, [], []⟩) :=
  ⟨by decide,
   (C1_nonadmin_mutations_rejected ⟨⟨"alice"⟩, [], []⟩ "bob" "k"
     (fun s => Except.ok s) (by decide)).1⟩

/-- C2: For every permit with the expected purpose name whose validation
returns a signer, `SubscriberStatusWithPermit(key, permit)` fails with the
Unauthorized error when the signer differs from the stored admin, and
otherwise returns `{active: b}` with `b` true exactly when `key` is present in
the subscriber map. -/
theorem C2_subscriber_permit_admin_gate (validate : PermitValidator) (store : Store)
    (caddr key signer : String) (permit : Permit)
    (hname : permit.params.permit_name = "query_subscriber_permit")
    (hval : validate "permits_subscriber_status" permit caddr (some "secret") = Except.ok signer) :
    (signer ≠ store.state.admin →
      query_subscriber_with_permit validate store caddr key permit =
        Except.error (StdError.genericErr "Unauthorized: not the admin")) ∧
    (signer = store.state.admin →
      query_subscriber_with_permit validate store caddr key permit =
        Except.ok ⟨kmContains key store.sb_map⟩) := by
  constructor <;> intro hs <;>
    simp [query_subscriber_with_permit, hname, hval, hs, kmGet_isSome]

/-- Witness for C2: an admin-signed permit sees the registered key as active. -/
theorem C2_witness :
    query_subscriber_with_permit (fun _ _ _ _ => Except.ok "alice")
      ⟨⟨"alice"⟩, [("bob", ⟨true⟩)], []⟩ "c" "bob" ⟨⟨"query_subscriber_permit"⟩⟩ =
      Except.ok ⟨true⟩ :=
  (C2_subscriber_permit_admin_gate (fun _ _ _ _ => Except.ok "alice")
    ⟨⟨"alice"⟩, [("bob", ⟨true⟩)], []⟩ "c" "bob" "alice" ⟨⟨"query_subscriber_permit"⟩⟩
    rfl rfl).2 rfl

/-- C3: A permit whose purpose name differs from the query's expected literal
is rejected with the wrong-purpose error regardless of the permit-validation
capability (so before any cryptographic validation can run); in particular a
permit minted for `"api_keys_permit"` fails `SubscriberStatusWithPermit` even
when every validator would accept it as admin-signed. -/
theorem C3_wrong_purpose_rejected (v1 v2 : PermitValidator) (store : Store)
    (caddr key : String) (permit : Permit) :
    (permit.params.permit_name ≠ "query_subscriber_permit" →
      query_subscriber_with_permit v1 store caddr key permit =
        Except.error (StdError.genericErr "Invalid permit name")) ∧
    (permit.params.permit_name ≠ "api_keys_permit" →
      query_api_keys_with_permit v2 store caddr permit =
        Except.error (StdError.genericErr "Invalid permit name")) := by
  constructor <;> intro h <;>
    simp [query_subscriber_with_permit, query_api_keys_with_permit, h]

/-- Witness for C3: an `"api_keys_permit"` permit fails the subscriber query
even under a validator that returns the admin for every permit. -/
theorem C3_witness :
    query_subscriber_with_permit (fun _ _ _ _ => Except.ok "alice")
      ⟨⟨"alice"⟩, [("bob", ⟨true⟩)], []⟩ "c" "bob" ⟨⟨"api_keys_permit"⟩⟩ =
      Except.error (StdError.genericErr "Invalid permit name") :=
  (C3_wrong_purpose_rejected (fun _ _ _ _ => Except.ok "alice")
    (fun _ _ _ _ => Except.ok "alice") ⟨⟨"alice"⟩, [("bob", ⟨true⟩)], []⟩ "c" "bob"
    ⟨⟨"api_keys_permit"⟩⟩).1 (by decide)

/-- C4: `AddApiKey{s}` by the admin stores under the API-key map only the
hexadecimal SHA-256 digest of `s` — a 64-character lowercase hex string —
never the raw secret, and the acknowledgement carries the hashed form. -/
theorem C4_add_api_key_stores_digest (store : Store) (sender s : String)
    (hs : sender = store.state.admin)
    (habs : kmContains (hexEncode (sha256 (strBytes s))) store.api_key_map = false) :
    try_add_api_key store sender s =
      (Except.ok ⟨[("action", "add_api_key"),
                   ("stored_hash", hexEncode (sha256 (strBytes s)))]⟩,
       { store with api_key_map :=
           store.api_key_map ++ [(hexEncode (sha256 (strBytes s)), ⟨⟩)] }) ∧
    (hexEncode (sha256 (strBytes s))).length = 64 ∧
    (∀ c ∈ (hexEncode (sha256 (strBytes s))).data, isLowerHexChar c = true) := by
  refine ⟨?_, ?_, hexEncode_lowerHex _ (sha256_lt _)⟩
  · simp [try_add_api_key, hs, habs, kmInsert, Response.new, Response.addAttr]
  · rw [hexEncode_length, sha256_length]

/-- Witness for C4: adding `"test_key1"` stores its concrete SHA-256 digest. -/
theorem C4_witness :
    hexEncode (sha256 (strBytes "test_key1")) =
      "6498a94934204d89a2091b2c9f755ca9ad447f12eb92fce4431c032a2dd6ac26" ∧
    try_add_api_key ⟨⟨"alice"⟩, [], []⟩ "alice" "test_key1" =
      (Except.ok ⟨[("action", "add_api_key"),
                   ("stored_hash", hexEncode (sha256 (strBytes "test_key1")))]⟩,
       ⟨⟨"alice"⟩, [], [(hexEncode (sha256 (strBytes "test_key1")), ⟨⟩)]⟩) :=
  ⟨by rfl,
   (C4_add_api_key_stores_digest ⟨⟨"alice"⟩, [], []⟩ "alice" "test_key1" rfl rfl).1⟩

/-- C5: `SetAdmin(caller, new_identity)` succeeds only when the caller is the
current admin and the new identity passes host address validation (failing
with the Unauthorized or invalid-address error otherwise); on success — host
validation accepting an identity returns it in canonical form unchanged — it
persists the new admin and the acknowledgement carries the new admin string. -/
theorem C5_set_admin_correct (store : Store) (sender pk : String) (av : AddrValidator) :
    (sender ≠ store.state.admin →
      try_set_admin store sender pk av =
        (Except.error (StdError.genericErr "Only the current admin can set a new admin"), store)) ∧
    (∀ e, sender = store.state.admin → av pk = Except.error e →
      try_set_admin store sender pk av =
        (Except.error (StdError.genericErr ("Invalid address: " ++ e)), store)) ∧
    (sender = store.state.admin → av pk = Except.ok pk →
      try_set_admin store sender pk av =
        (Except.ok ⟨[("action", "set_admin"), ("new_admin", pk)]⟩,
         { store with state := ⟨pk⟩ })) := by
  refine ⟨fun h => ?_, fun e hs he => ?_, fun hs ho => ?_⟩ <;>
    simp [try_set_admin, *, Response.new, Response.addAttr]

/-- Witness for C5: the admin successfully rotates to a validated identity. -/
theorem C5_witness :
    try_set_admin ⟨⟨"alice"⟩, [], []⟩ "alice" "bob" (fun s => Except.ok s) =
      (Except.ok ⟨[("action", "set_admin"), ("new_admin", "bob")]⟩,
       ⟨⟨"bob"⟩, [], []⟩) :=
  (C5_set_admin_correct ⟨⟨"alice"⟩, [], []⟩ "alice" "bob" (fun s => Except.ok s)).2.2 rfl rfl

/-- C6: after a successful `SetAdmin{new}` by the current admin (host
validation accepting the new identity unchanged), every admin-gated operation
with the old admin as sender fails with its Unauthorized error, while the same
operations with the new admin as sender pass the admin gate. -/
theorem C6_admin_rotation (store : Store) (newAdmin k : String) (av av2 : AddrValidator)
    (r : Response) (store2 : Store)
    (hrot : try_set_admin store store.state.admin newAdmin av = (Except.ok r, store2))
    (hav : av newAdmin = Except.ok newAdmin)
    (hold : store.state.admin ≠ newAdmin)
    (hav2 : av2 k = Except.ok k) :
    store2.state.admin = newAdmin ∧
    ((try_register_subscriber store2 store.state.admin k).1 =
       Except.error (StdError.genericErr "Only admin can register subscribers") ∧
     (try_remove_subscriber store2 store.state.admin k).1 =
       Except.error (StdError.genericErr "Only admin can remove subscribers") ∧
     (try_set_admin store2 store.state.admin k av2).1 =
       Except.error (StdError.genericErr "Only the current admin can set a new admin") ∧
     (try_add_api_key store2 store.state.admin k).1 =
       Except.error (StdError.genericErr "Only admin can add API keys") ∧
     (try_revoke_api_key store2 store.state.admin k).1 =
       Except.error (StdError.genericErr "Only admin can revoke API keys")) ∧
    ((try_register_subscriber store2 newAdmin k).1 ≠
       Except.error (StdError.genericErr "Only admin can register subscribers") ∧
     (try_remove_subscriber store2 newAdmin k).1 ≠
       Except.error (StdError.genericErr "Only admin can remove subscribers") ∧
     (try_set_admin store2 newAdmin k av2).1 =
       Except.ok ⟨[("action", "set_admin"), ("new_admin", k)]⟩ ∧
     (try_add_api_key store2 newAdmin k).1 ≠
       Except.error (StdError.genericErr "Only admin can add API keys") ∧
     (try_revoke_api_key store2 newAdmin k).1 ≠
       Except.error (StdError.genericErr "Only admin can revoke API keys")) := by
  have hstep : try_set_admin store store.state.admin newAdmin av =
      (Except.ok ⟨[("action", "set_admin"), ("new_admin", newAdmin)]⟩,
       { store with state := ⟨newAdmin⟩ }) := by
    simp [try_set_admin, hav, Response.new, Response.addAttr]
  rw [hstep] at hrot
  simp only [Prod.mk.injEq] at hrot
  obtain ⟨-, hs2⟩ := hrot
  subst hs2
  refine ⟨rfl, ?_, ?_⟩
  · obtain ⟨h1, h2, h3, h4, h5⟩ :=
      nonAdminUniform { store with state := ⟨newAdmin⟩ } store.state.admin k av2 (by simpa using hold)
    exact ⟨by simp [h1], by simp [h2], by simp [h3], by simp [h4], by simp [h5]⟩
  · refine ⟨?_, ?_, ?_, ?_, ?_⟩
    · by_cases hc : kmContains k store.sb_map <;>
        simp [try_register_subscriber, hc]
    · by_cases hc : kmContains k store.sb_map <;>
        simp [try_remove_subscriber, hc]
    · simp [try_set_admin, hav2, Response.new, Response.addAttr]
    · by_cases hc : kmContains (hexEncode (sha256 (strBytes k))) store.api_key_map <;>
        simp [try_add_api_key, hc]
    · by_cases hc : kmContains (hexEncode (sha256 (strBytes k))) store.api_key_map <;>
        simp [try_revoke_api_key, hc]

/-- Witness for C6: rotating from "alice" to "bob" locks "alice" out and lets
"bob" through the gate. -/
theorem C6_witness :
    (try_register_subscriber ⟨⟨"bob"⟩, [], []⟩ "alice" "carol").1 =
      Except.error (StdError.genericErr "Only admin can register subscribers") ∧
    (try_set_admin ⟨⟨"bob"⟩, [], []⟩ "bob" "carol" (fun s => Except.ok s)).1 =
      Except.ok ⟨[("action", "set_admin"), ("new_admin", "carol")]⟩ := by
  have h := C6_admin_rotation ⟨⟨"alice"⟩, [], []⟩ "bob" "carol"
    (fun s => Except.ok s) (fun s => Except.ok s)
    ⟨[("action", "set_admin"), ("new_admin", "bob")]⟩ ⟨⟨"bob"⟩, [], []⟩
    (by rfl) rfl (by decide) rfl
  exact ⟨h.2.1.1, h.2.2.2.2.1⟩

/-- C7: `Migrate{Clear}` removes every entry of the API-key map — a subsequent
enumeration returns the empty sequence — and leaves the subscriber map and the
admin configuration unchanged. -/
theorem C7_migrate_clears_api_keys (store : Store) :
    migrate store MigrateMsg.Migrate =
      (Except.ok ⟨[("action", "migrate"), ("status", "api_key_map_cleared")]⟩,
       { state := store.state, sb_map := store.sb_map, api_key_map := [] }) ∧
    kmKeys (migrate store MigrateMsg.Migrate).2.api_key_map = [] := by
  have h : migrate store MigrateMsg.Migrate =
      (Except.ok ⟨[("action", "migrate"), ("status", "api_key_map_cleared")]⟩,
       { state := store.state, sb_map := store.sb_map, api_key_map := [] }) := by
    simp [migrate, foldl_kmRemove_keys, Response.new, Response.addAttr]
  exact ⟨h, by rw [h]; rfl⟩

/-- C8: a second `RegisterSubscriber{k}` for a registered `k` fails with
AlreadyExists leaving the store unchanged; `RemoveSubscriber` on an
unregistered key fails with NotFound; `AddApiKey` fails on a duplicate digest
and `RevokeApiKey` fails on an absent digest, all without touching the store. -/
theorem C8_duplicate_absent_rejections (store : Store) (sender k s : String)
    (hs : sender = store.state.admin) :
    (kmContains k store.sb_map = true →
      try_register_subscriber store sender k =
        (Except.error (StdError.genericErr "Subscriber already registered"), store)) ∧
    (kmContains k store.sb_map = false →
      try_remove_subscriber store sender k =
        (Except.error (StdError.genericErr "Subscriber not registered"), store)) ∧
    (kmContains (hexEncode (sha256 (strBytes s))) store.api_key_map = true →
      try_add_api_key store sender s =
        (Except.error (StdError.genericErr "API key (hash) already exists"), store)) ∧
    (kmContains (hexEncode (sha256 (strBytes s))) store.api_key_map = false →
      try_revoke_api_key store sender s =
        (Except.error (StdError.genericErr "API key (hash) not found"), store)) := by
  refine ⟨fun h => ?_, fun h => ?_, fun h => ?_, fun h => ?_⟩ <;>
    simp [try_register_subscriber, try_remove_subscriber, try_add_api_key,
          try_revoke_api_key, hs, h]

/-- Witness for C8: a duplicate registration and a removal of an absent key
are both rejected with the store intact. -/
theorem C8_witness :
    try_register_subscriber ⟨⟨"alice"⟩, [("bob", ⟨true⟩)], []⟩ "alice" "bob" =
      (Except.error (StdError.genericErr "Subscriber already registered"),
       ⟨⟨"alice"⟩, [("bob", ⟨true⟩)], []⟩) ∧
    try_remove_subscriber ⟨⟨"alice"⟩, [("bob", ⟨true⟩)], []⟩ "alice" "dan" =
      (Except.error (StdError.genericErr "Subscriber not registered"),
       ⟨⟨"alice"⟩, [("bob", ⟨true⟩)], []⟩) :=
  ⟨(C8_duplicate_absent_rejections ⟨⟨"alice"⟩, [("bob", ⟨true⟩)], []⟩ "alice" "bob" "x" rfl).1
     (by decide),
   (C8_duplicate_absent_rejections ⟨⟨"alice"⟩, [("bob", ⟨true⟩)], []⟩ "alice" "dan" "x" rfl).2.1
     (by decide)⟩

/-- C9 (spec-modelled): the `SubscriberStatus{key, signature_hex,
public_key_hex}` query verifies a detached secp256k1 ECDSA signature over the
SHA-256 digest of `key ++ "_payload_message"`, fails on any malformed input or
cryptographic mismatch, and otherwise returns `{active}` from subscriber
presence. -/
theorem C9_subscriber_status_signature (secp : SecpVerifier) (store : Store)
    (key sigHex pkHex : String) :
    (hexDecode pkHex = none →
      query_subscriber_status secp store key sigHex pkHex =
        Except.error (StdError.genericErr "Invalid public key hex")) ∧
    (∀ pk, hexDecode pkHex = some pk → hexDecode sigHex = none →
      query_subscriber_status secp store key sigHex pkHex =
        Except.error (StdError.genericErr "Invalid signature hex")) ∧
    (∀ pk sig e, hexDecode pkHex = some pk → hexDecode sigHex = some sig →
      secp pk sig (sha256 (strBytes (key ++ "_payload_message"))) = Except.error e →
      query_subscriber_status secp store key sigHex pkHex = Except.error e) ∧
    (∀ pk sig, hexDecode pkHex = some pk → hexDecode sigHex = some sig →
      secp pk sig (sha256 (strBytes (key ++ "_payload_message"))) = Except.ok false →
      query_subscriber_status secp store key sigHex pkHex =
        Except.error (StdError.genericErr "Invalid signature")) ∧
    (∀ pk sig, hexDecode pkHex = some pk → hexDecode sigHex = some sig →
      secp pk sig (sha256 (strBytes (key ++ "_payload_message"))) = Except.ok true →
      query_subscriber_status secp store key sigHex pkHex =
        Except.ok ⟨kmContains key store.sb_map⟩) := by
  refine ⟨fun h => ?_, fun pk h1 h2 => ?_, fun pk sig e h1 h2 h3 => ?_,
          fun pk sig h1 h2 h3 => ?_, fun pk sig h1 h2 h3 => ?_⟩ <;>
    simp [query_subscriber_status, verify_signature, *]

/-- Witness for C9: a verifier that accepts reports the registered key active. -/
theorem C9_witness :
    hexDecode "02" = some [2] ∧ hexDecode "00" = some [0] ∧
    query_subscriber_status (fun _ _ _ => Except.ok true)
      ⟨⟨"alice"⟩, [("bob", ⟨true⟩)], []⟩ "bob" "00" "02" = Except.ok ⟨true⟩ :=
  ⟨by decide, by decide,
   (C9_subscriber_status_signature (fun _ _ _ => Except.ok true)
     ⟨⟨"alice"⟩, [("bob", ⟨true⟩)], []⟩ "bob" "00" "02").2.2.2.2 [2] [0]
     (by decide) (by decide) rfl⟩

/-- C10: the admin check runs before any key lookup, so a non-admin call's
result is the same Unauthorized error whatever the registry holds: two stores
agreeing on the admin but with arbitrary subscriber and API-key maps give
identical results to the same non-admin call, and neither store changes. -/
theorem C10_nonadmin_observational_equivalence (s1 s2 : Store) (a k : String)
    (av : AddrValidator)
    (hadm : s1.state.admin = s2.state.admin) (hne : a ≠ s1.state.admin) :
    ((try_register_subscriber s1 a k).1 = (try_register_subscriber s2 a k).1 ∧
     (try_register_subscriber s1 a k).2 = s1 ∧ (try_register_subscriber s2 a k).2 = s2) ∧
    ((try_remove_subscriber s1 a k).1 = (try_remove_subscriber s2 a k).1 ∧
     (try_remove_subscriber s1 a k).2 = s1 ∧ (try_remove_subscriber s2 a k).2 = s2) ∧
    ((try_set_admin s1 a k av).1 = (try_set_admin s2 a k av).1 ∧
     (try_set_admin s1 a k av).2 = s1 ∧ (try_set_admin s2 a k av).2 = s2) ∧
    ((try_add_api_key s1 a k).1 = (try_add_api_key s2 a k).1 ∧
     (try_add_api_key s1 a k).2 = s1 ∧ (try_add_api_key s2 a k).2 = s2) ∧
    ((try_revoke_api_key s1 a k).1 = (try_revoke_api_key s2 a k).1 ∧
     (try_revoke_api_key s1 a k).2 = s1 ∧ (try_revoke_api_key s2 a k).2 = s2) := by
  obtain ⟨a1, b1, c1, d1, e1⟩ := nonAdminUniform s1 a k av hne
  obtain ⟨a2, b2, c2, d2, e2⟩ := nonAdminUniform s2 a k av (hadm ▸ hne)
  refine ⟨⟨?_, ?_, ?_⟩, ⟨?_, ?_, ?_⟩, ⟨?_, ?_, ?_⟩, ⟨?_, ?_, ?_⟩, ⟨?_, ?_, ?_⟩⟩ <;>
    simp [a1, a2, b1, b2, c1, c2, d1, d2, e1, e2]

/-- Witness for C10: a non-admin sees the same rejection against an empty
registry and a populated one. -/
theorem C10_witness :
    (try_register_subscriber ⟨⟨"alice"⟩, [], []⟩ "eve" "bob").1 =
      (try_register_subscriber ⟨⟨"alice"⟩, [("bob", ⟨true⟩)], [("d", ⟨⟩)]⟩ "eve" "bob").1 :=
  (C10_nonadmin_observational_equivalence ⟨⟨"alice"⟩, [], []⟩
    ⟨⟨"alice"⟩, [("bob", ⟨true⟩)], [("d", ⟨⟩)]⟩ "eve" "bob"
    (fun s => Except.ok s) rfl (by decide)).1.1
